import Mathlib

/-!
Verification of the GitHub user-search component (`App` in src/src/User.tsx).

The component holds three state slots (`userName`, `user`, `loading`), a
change handler that overwrites `userName`, a submit handler that performs
one HTTP GET and updates `user`/`loading` according to how the request
settles, and a pure render function of the state.

The embedding below follows the TypeScript source line by line:
  * `AppState` is the triple of useState slots (lines 37-39);
  * `handleChange` is the input change handler (lines 42-44);
  * `handleSubmit` is the async submit handler (lines 47-67), with the
    try block split into `dispatchState` (setLoading(true)) and
    `awaitResponse` (the two awaits plus the success-path updates), and
    the catch clause applied when `awaitResponse` throws;
  * `render` is the component body after the handlers (lines 69-97).
The settlement of the two awaited promises (fetch and response.json) is
an input `SubmitOutcome` supplied by the environment.
-/

namespace GithubUserSearch

/-- JSON values as returned by response.json(); numeric payloads are
abstracted as integers (no claim touches numbers). -/
inductive Json where
  | str : String → Json
  | num : Int → Json
  | jbool : Bool → Json
  | null : Json
  | arr : List Json → Json
  | obj : List (String × Json) → Json
deriving Repr

/-- JavaScript property access `j.key`: a field of an object, undefined
(none) when the key is missing or the value is not an object. -/
def jsGet (j : Json) (key : String) : Option Json :=
  match j with
  | Json.obj fields => List.lookup key fields
  | _ => none

/-- The three useState slots of the App component (User.tsx lines 37-39). -/
structure AppState where
  userName : String
  user : Option Json
  loading : Bool
deriving Repr

/-- Initial state at mount: useState("") , useState(null), useState(false). -/
def initialState : AppState :=
  { userName := "", user := none, loading := false }

/-- Change handler (lines 42-44): setUserName(event.target.value). -/
def handleChange (newText : String) (s : AppState) : AppState :=
  { s with userName := newText }

/-- An HTTP request as issued by fetch(url) with a single string argument:
method GET, no headers (hence no authentication header). -/
structure HttpRequest where
  method : String
  url : String
  headers : List (String × String)
deriving Repr, DecidableEq

/-- The request built on line 58: fetch with the template literal
interpolating userName verbatim (no percent-encoding). -/
def submitRequest (userName : String) : HttpRequest :=
  { method := "GET"
    url := "https://api.github.com/users/" ++ userName
    headers := [] }

/-- How the two awaited promises of handleSubmit settle, supplied by the
environment: the fetch promise rejects (network failure), response.json()
rejects (unparseable body), or response.json() resolves with a value.  The
HTTP status code of the response is carried alongside to record that the
code never inspects it. -/
inductive SubmitOutcome where
  | fetchError : SubmitOutcome
  | parseError : Nat → SubmitOutcome
  | parsed : Nat → Json → SubmitOutcome
deriving Repr

/-- First statement of the try block (line 57): setLoading(true). -/
def dispatchState (s : AppState) : AppState :=
  { s with loading := true }

/-- Rest of the try block (lines 58-61): await fetch, await response.json(),
then setUser(data); setLoading(false).  An exception from either await
carries the state at the point of the throw. -/
def awaitResponse (s1 : AppState) (o : SubmitOutcome) : Except AppState AppState :=
  match o with
  | SubmitOutcome.fetchError => Except.error s1
  | SubmitOutcome.parseError _ => Except.error s1
  | SubmitOutcome.parsed _ data =>
      Except.ok { s1 with user := some data, loading := false }

/-- Everything observable about one run of handleSubmit: the final state,
the request handed to fetch, whether console.error ran, and whether
event.preventDefault ran. -/
structure SubmitResult where
  state : AppState
  request : HttpRequest
  errorLogged : Bool
  defaultPrevented : Bool
deriving Repr

/-- Submit handler (lines 47-67): preventDefault, then the try block
(setLoading(true); await fetch; await json; setUser; setLoading(false)),
with the catch clause (setLoading(false); console.error) on a throw. -/
def handleSubmit (s : AppState) (o : SubmitOutcome) : SubmitResult :=
  match awaitResponse (dispatchState s) o with
  | Except.ok s2 =>
      { state := s2
        request := submitRequest s.userName
        errorLogged := false
        defaultPrevented := true }
  | Except.error sErr =>
      { state := { sErr with loading := false }
        request := submitRequest s.userName
        errorLogged := true
        defaultPrevented := true }

/-- The two UI phases of the spec's state machine. -/
inductive Phase where
  | idle : Phase
  | loading : Phase
deriving Repr, DecidableEq

/-- The phase is read off the loading flag. -/
def phase (s : AppState) : Phase :=
  if s.loading then Phase.loading else Phase.idle

/-- A sequence of further submissions, each settling with its outcome. -/
def runSubmits (s : AppState) : List SubmitOutcome → AppState
  | [] => s
  | o :: os => runSubmits (handleSubmit s o).state os

/-- Rendered output: a DOM-like tree of text nodes and elements with
string attributes. -/
inductive Node where
  | text : String → Node
  | elem : String → List (String × String) → List Node → Node
deriving Repr

/-- Children produced by a JSX expression child such as `\x7buser.name\x7d`:
a string renders as a text node, a number as its decimal text, and
undefined, null and booleans render nothing (arrays and objects never
arise from the fields this component renders). -/
def jsxChildren : Option Json → List Node
  | some (Json.str s) => [Node.text s]
  | some (Json.num n) => [Node.text (toString n)]
  | _ => []

/-- An attribute value from a JSX expression: strings pass through,
numbers stringify, and undefined, null or boolean values make React omit
the attribute. -/
def attrVal : Option Json → Option String
  | some (Json.str s) => some s
  | some (Json.num n) => some (toString n)
  | _ => none

/-- Attributes of the img element (line 92): src=\x7buser.avatar_url\x7d
(omitted when undefined) and alt="". -/
def imgAttrs (u : Json) : List (String × String) :=
  (match attrVal (jsGet u "avatar_url") with
   | some v => [("src", v)]
   | none => []) ++ [("alt", "")]

/-- The conditional result panel (lines 87-95): `\x7buser && (...)\x7d`
renders nothing when user is null, else a div with the name heading, the
bio paragraph and the avatar image. -/
def resultPanel : Option Json → List Node
  | none => []
  | some u =>
      [Node.elem "div" []
        [Node.elem "h1" [] (jsxChildren (jsGet u "name")),
         Node.elem "p" [] (jsxChildren (jsGet u "bio")),
         Node.elem "img" (imgAttrs u) []]]

/-- The form (lines 76-85): text input bound to userName plus the Search
button. -/
def formView (userName : String) : Node :=
  Node.elem "form" []
    [Node.elem "input"
      [("type", "text"), ("placeholder", "Enter username"), ("value", userName)] [],
     Node.elem "button" [] [Node.text "Search"]]

/-- The component body (lines 69-97): the loading heading when loading,
else the div holding the form and the conditional result panel. -/
def render (s : AppState) : Node :=
  if s.loading then Node.elem "h1" [] [Node.text "Loading..."]
  else Node.elem "div" [] (formView s.userName :: resultPanel s.user)

mutual

/-- Number of elements with the given tag in a tree. -/
def countTag (tag : String) : Node → Nat
  | Node.text _ => 0
  | Node.elem t _ cs => (if t = tag then 1 else 0) + countTagL tag cs

/-- Number of elements with the given tag in a forest. -/
def countTagL (tag : String) : List Node → Nat
  | [] => 0
  | n :: ns => countTag tag n + countTagL tag ns

end

/-- The stub response body of the octocat test case. -/
def octocatJson : Json :=
  Json.obj
    [("login", Json.str "octocat"),
     ("avatar_url", Json.str "u"),
     ("html_url", Json.str "h"),
     ("bio", Json.str "b")]

/-- State just before submitting the octocat query. -/
def octocatState : AppState :=
  { userName := "octocat", user := none, loading := false }

/-- A JSON body a 404 answer carries. -/
def notFoundJson : Json :=
  Json.obj [("message", Json.str "Not Found")]

/-- State before the 404 scenario: a previous successful lookup is held in
the user slot. -/
def before404State : AppState :=
  { userName := "no-such-user", user := some octocatJson, loading := false }

/-- A state with a request outstanding. -/
def loadingState : AppState :=
  { userName := "octocat", user := none, loading := true }

/-- A settled state holding the octocat record, about to be rendered. -/
def loadedState : AppState :=
  { userName := "octocat", user := some octocatJson, loading := false }

/-! Theorems settling the claims, one per claim, with helper lemmas. -/

/-- Helper: the children a JSX expression child produces are text nodes
only, so they contain no element of any tag. -/
theorem countTagL_jsxChildren (tag : String) (o : Option Json) :
    countTagL tag (jsxChildren o) = 0 := by
  rcases o with _ | j
  · rfl
  · cases j <;> simp [jsxChildren, countTagL, countTag]

/-- Helper: a run of further submissions that starts with the loading flag
down ends with it down, because every submission clears it on settlement. -/
theorem runSubmits_loading (os : List SubmitOutcome) (s : AppState)
    (h : s.loading = false) : (runSubmits s os).loading = false := by
  induction os generalizing s with
  | nil => exact h
  | cons o os ih =>
      apply ih
      cases o <;> rfl

/-- C1: a submission that settles in network failure or an unparseable
body logs the error, clears the loading flag, and leaves the user slot
unchanged. -/
theorem handleSubmit_failure_logs_and_preserves_user
    (s : AppState) (o : SubmitOutcome)
    (h : o = SubmitOutcome.fetchError ∨ ∃ st, o = SubmitOutcome.parseError st) :
    (handleSubmit s o).errorLogged = true ∧
    (handleSubmit s o).state.loading = false ∧
    (handleSubmit s o).state.user = s.user := by
  rcases h with rfl | ⟨st, rfl⟩ <;>
    exact ⟨rfl, rfl, rfl⟩

/-- Witness for C1: concrete failing submission from the initial state. -/
theorem handleSubmit_failure_logs_and_preserves_user_witness :
    (SubmitOutcome.fetchError = SubmitOutcome.fetchError ∨
      ∃ st, SubmitOutcome.fetchError = SubmitOutcome.parseError st) ∧
    ((handleSubmit initialState SubmitOutcome.fetchError).errorLogged = true ∧
     (handleSubmit initialState SubmitOutcome.fetchError).state.loading = false ∧
     (handleSubmit initialState SubmitOutcome.fetchError).state.user = initialState.user) :=
  ⟨Or.inl rfl,
   handleSubmit_failure_logs_and_preserves_user initialState SubmitOutcome.fetchError (Or.inl rfl)⟩

/-- C2: a submission whose request resolves with a parseable body stores
exactly the parsed record (no schema validation) and clears the loading
flag; in particular the octocat stub run ends with the stub record stored
and loading false. -/
theorem handleSubmit_success_stores_parsed_record :
    (∀ (s : AppState) (status : Nat) (data : Json),
      (handleSubmit s (SubmitOutcome.parsed status data)).state.user = some data ∧
      (handleSubmit s (SubmitOutcome.parsed status data)).state.loading = false) ∧
    ((handleSubmit octocatState (SubmitOutcome.parsed 200 octocatJson)).state.user
        = some octocatJson ∧
     (handleSubmit octocatState (SubmitOutcome.parsed 200 octocatJson)).state.loading
        = false) :=
  ⟨fun _ _ _ => ⟨rfl, rfl⟩, rfl, rfl⟩

/-- Counterexample to C3 as stated: submitting the query octocat issues a
GET whose URL is the github host, not https://api.example.com/users/octocat. -/
theorem submit_url_not_example_host :
    (handleSubmit octocatState SubmitOutcome.fetchError).request.url
        = "https://api.github.com/users/octocat" ∧
    (handleSubmit octocatState SubmitOutcome.fetchError).request.url
        ≠ "https://api.example.com/users/octocat" := by
  exact ⟨rfl, by decide⟩

/-- C3 amended: for every value of Query, the submission issues an HTTP
GET to https://api.github.com/users/ followed by the raw, non-encoded
current Query, with no headers and hence no authentication. -/
theorem submit_request_shape (s : AppState) (o : SubmitOutcome) :
    (handleSubmit s o).request =
      { method := "GET"
        url := "https://api.github.com/users/" ++ s.userName
        headers := [] } := by
  cases o <;> rfl

/-- C4: the loading flag is false initially, raised by the dispatch step
of every submission, and lowered again at settlement whatever the outcome;
the change handler never moves it, and any further sequence of submissions
returns to idle, so the component is re-enterable indefinitely. -/
theorem loading_lifecycle :
    phase initialState = Phase.idle ∧
    (∀ s, phase (dispatchState s) = Phase.loading) ∧
    (∀ s o, phase (handleSubmit s o).state = Phase.idle) ∧
    (∀ s t, (handleChange t s).loading = s.loading) ∧
    (∀ s o os, phase (runSubmits (handleSubmit s o).state os) = Phase.idle) := by
  refine ⟨rfl, fun s => rfl, fun s o => ?_, fun s t => rfl, fun s o os => ?_⟩
  · cases o <;> rfl
  · have h1 : (handleSubmit s o).state.loading = false := by cases o <;> rfl
    have h2 := runSubmits_loading os (handleSubmit s o).state h1
    simp [phase, h2]

/-- C10: a submission never touches the Query slot: after settlement,
success or failure, userName equals its value at dispatch. -/
theorem handleSubmit_preserves_userName (s : AppState) (o : SubmitOutcome) :
    (handleSubmit s o).state.userName = s.userName := by
  cases o <;> rfl

/-- C9: the handler never inspects the HTTP status code, so any response
whose body parses takes the success path: a 404 with a JSON error body
overwrites the stored user with the error object and clears loading,
instead of being treated as a failure that would leave the slot unchanged. -/
theorem status_code_ignored :
    (∀ (s : AppState) (status : Nat) (data : Json),
      handleSubmit s (SubmitOutcome.parsed status data)
        = handleSubmit s (SubmitOutcome.parsed 200 data) ∧
      (handleSubmit s (SubmitOutcome.parsed status data)).state.user = some data ∧
      (handleSubmit s (SubmitOutcome.parsed status data)).state.loading = false ∧
      (handleSubmit s (SubmitOutcome.parsed status data)).errorLogged = false) ∧
    ((handleSubmit before404State (SubmitOutcome.parsed 404 notFoundJson)).state.user
        = some notFoundJson ∧
     (handleSubmit before404State (SubmitOutcome.parsed 404 notFoundJson)).state.user
        ≠ before404State.user) := by
  refine ⟨fun s status data => ⟨rfl, rfl, rfl, rfl⟩, rfl, ?_⟩
  simp [handleSubmit, awaitResponse, dispatchState, before404State, notFoundJson, octocatJson]

/-- C8: the change handler overwrites Query with the new text
unconditionally, for every prior state and every new text, and touches
nothing else. -/
theorem handleChange_unconditional (s : AppState) (t : String) :
    (handleChange t s).userName = t ∧
    (handleChange t s).user = s.user ∧
    (handleChange t s).loading = s.loading :=
  ⟨rfl, rfl, rfl⟩

/-- C5: while the loading flag is up the component renders only the
loading heading: no form, no input, no submit button and no result panel
appear in the output. -/
theorem render_loading_only (s : AppState) (h : s.loading = true) :
    render s = Node.elem "h1" [] [Node.text "Loading..."] ∧
    countTag "form" (render s) = 0 ∧
    countTag "input" (render s) = 0 ∧
    countTag "button" (render s) = 0 ∧
    countTag "img" (render s) = 0 := by
  have hr : render s = Node.elem "h1" [] [Node.text "Loading..."] := by
    simp [render, h]
  refine ⟨hr, ?_, ?_, ?_, ?_⟩ <;> rw [hr] <;> rfl

/-- Witness for C5: the concrete loading state renders the bare heading. -/
theorem render_loading_only_witness :
    loadingState.loading = true ∧
    (render loadingState = Node.elem "h1" [] [Node.text "Loading..."] ∧
     countTag "form" (render loadingState) = 0 ∧
     countTag "input" (render loadingState) = 0 ∧
     countTag "button" (render loadingState) = 0 ∧
     countTag "img" (render loadingState) = 0) :=
  ⟨rfl, render_loading_only loadingState rfl⟩

/-- C6: with the loading flag down the component renders the form, whose
input carries the current Query as its value, plus the Search button; the
result panel is absent when no user is stored and, when one is stored,
shows its name, bio and avatar fields. -/
theorem render_idle_shows_form (s : AppState) (h : s.loading = false) :
    render s = Node.elem "div" []
      (Node.elem "form" []
        [Node.elem "input"
          [("type", "text"), ("placeholder", "Enter username"), ("value", s.userName)] [],
         Node.elem "button" [] [Node.text "Search"]] :: resultPanel s.user) ∧
    resultPanel none = [] ∧
    (∀ u, resultPanel (some u) =
      [Node.elem "div" []
        [Node.elem "h1" [] (jsxChildren (jsGet u "name")),
         Node.elem "p" [] (jsxChildren (jsGet u "bio")),
         Node.elem "img" (imgAttrs u) []]]) := by
  refine ⟨?_, rfl, fun u => rfl⟩
  simp [render, h, formView]

/-- Witness for C6: the concrete loaded state renders the form and panel. -/
theorem render_idle_shows_form_witness :
    loadedState.loading = false ∧
    (render loadedState = Node.elem "div" []
      (Node.elem "form" []
        [Node.elem "input"
          [("type", "text"), ("placeholder", "Enter username"), ("value", loadedState.userName)] [],
         Node.elem "button" [] [Node.text "Search"]] :: resultPanel loadedState.user) ∧
     resultPanel none = [] ∧
     (∀ u, resultPanel (some u) =
       [Node.elem "div" []
         [Node.elem "h1" [] (jsxChildren (jsGet u "name")),
          Node.elem "p" [] (jsxChildren (jsGet u "bio")),
          Node.elem "img" (imgAttrs u) []]])) :=
  ⟨rfl, render_idle_shows_form loadedState rfl⟩

/-- Counterexample to C7 as stated: with the octocat record loaded the
screen does show the result panel (one image), yet contains no hyperlink
element at all, so no link opening in a new browsing context exists. -/
theorem rendered_screen_no_hyperlink :
    countTag "img" (render loadedState) = 1 ∧
    countTag "a" (render loadedState) = 0 := by
  exact ⟨rfl, rfl⟩

/-- C7 amended: the screen consists of a single text input, one submit
button and, when a user is stored, a result panel with one image and two
text fields (the name heading and the bio paragraph); it contains no
hyperlink. -/
theorem rendered_screen_structure (s : AppState) (u : Json)
    (hl : s.loading = false) (hu : s.user = some u) :
    countTag "input" (render s) = 1 ∧
    countTag "button" (render s) = 1 ∧
    countTag "img" (render s) = 1 ∧
    countTag "h1" (render s) = 1 ∧
    countTag "p" (render s) = 1 ∧
    countTag "a" (render s) = 0 := by
  refine ⟨?_, ?_, ?_, ?_, ?_, ?_⟩ <;>
    simp [render, hl, hu, formView, resultPanel, countTag, countTagL,
      countTagL_jsxChildren]

/-- Witness for C7 amended: the structure counts at the loaded state. -/
theorem rendered_screen_structure_witness :
    (loadedState.loading = false ∧ loadedState.user = some octocatJson) ∧
    (countTag "input" (render loadedState) = 1 ∧
     countTag "button" (render loadedState) = 1 ∧
     countTag "img" (render loadedState) = 1 ∧
     countTag "h1" (render loadedState) = 1 ∧
     countTag "p" (render loadedState) = 1 ∧
     countTag "a" (render loadedState) = 0) :=
  ⟨⟨rfl, rfl⟩, rendered_screen_structure loadedState octocatJson rfl rfl⟩

end GithubUserSearch
